import Mathlib

/-!
Shallow embedding of the `/api/transcribe` request handler of the
minutes-backend repository.

The repository contains three variants of the handler:
* variant A: first half of `src/transcriptionRoutes.js` (lines 16-413),
* variant B: second half of `src/transcriptionRoutes.js` (lines 446-680),
* variant P: the handler in the unnamed source file (`part_000`).

All external collaborators (the speech-to-text call, the two or three
chat-completion calls, the datastore inserts, the file system) are modelled
as an oracle environment `Env` that fixes what each external call would
return.  The handler is then a pure function `Env → HandlerResult`
recording the HTTP status, the response body, which external calls were
made, which datastore inserts were attempted, and whether the temporary
upload file was unlinked.

JavaScript conventions used throughout the embedding:
* an `Option` field with value `none` models a missing / `null` /
  `undefined` / otherwise-falsy JSON field ( `x || d` and `x ?? d`
  become `Option.getD`),
* `JSON.parse` of the LLM reply is modelled abstractly: the oracle says
  whether the reply parses (`ParseOutcome.parsed`) or throws
  (`ParseOutcome.malformed`),
* JavaScript numbers are modelled as `ℚ`; `Math.round` is
  `fun x => ⌊x + 1/2⌋` (round half towards plus infinity),
* a rejected `await` is `CallResult.throws`, propagating to the outer
  `catch` block of the handler.
-/

namespace MinutesBackend

/-- One transcript segment as returned by the Whisper transcription:
`{ start, end, text }`. -/
structure Segment where
  start : ℚ
  «end» : ℚ
  text : String
deriving DecidableEq, Repr

/-- Result object of `groq.audio.transcriptions.create` (fields the handler
reads; each may be absent). `segments := none` models a non-array value
(the handler checks `Array.isArray`). -/
structure TranscriptionResult where
  text : Option String
  segments : Option (List Segment)
  duration : Option ℚ
  words : List String
deriving DecidableEq, Repr

/-- Outcome of an awaited external call: the promise either rejects
(`throws`, caught only by the handler's outer catch) or resolves. -/
inductive CallResult (α : Type) where
  | throws (msg : String)
  | returns (val : α)
deriving DecidableEq, Repr

/-- Whether the awaited call rejected. -/
def CallResult.isThrow {α : Type} : CallResult α → Bool
  | .throws _ => true
  | .returns _ => false

/-- Outcome of `JSON.parse` applied to an LLM reply: the reply either fails
to parse (`malformed`, the surrounding try/catch logs and continues) or
parses to a value of shape `α`. -/
inductive ParseOutcome (α : Type) where
  | malformed
  | parsed (v : α)
deriving DecidableEq, Repr

/-- Fields the handler reads out of the parsed overall-tone JSON; each may
be absent (`?? null`). -/
structure OverallFields where
  overallMoodScore : Option ℚ
  dominantEmotion : Option String
  emotionBreakdown : Option (List (String × ℚ))
deriving DecidableEq, Repr

/-- One entry of the parsed per-segment JSON array: `{ index, emotion,
score }`.  `emotion := none` models a falsy emotion field, `score := none`
models a score whose `typeof` is not `"number"`. -/
structure SegEntry where
  index : ℤ
  emotion : Option String
  score : Option ℚ
deriving DecidableEq, Repr

/-- Parsed per-segment JSON: the handler reads only `parsed.segments`
(defaulting to `[]` when absent or not an array). -/
structure SegFields where
  segments : Option (List SegEntry)
deriving DecidableEq, Repr

/-- Parsed `analysis.summary` object of the summary/tasks call (each list
may be absent). -/
structure SummaryFields where
  bullets : Option (List String)
  decisions : Option (List String)
  risks : Option (List String)
  followUpQuestions : Option (List String)
deriving DecidableEq, Repr

/-- One parsed task item of the summary/tasks call. -/
structure TaskItem where
  title : Option String
  description : Option String
  owner : Option String
  dueDate : Option String
  priority : Option String
  status : Option String
deriving DecidableEq, Repr

/-- Parsed `analysis.tasks` object (`items` may be absent). -/
structure TasksObj where
  items : Option (List TaskItem)
deriving DecidableEq, Repr

/-- Parsed top-level summary/tasks JSON. -/
structure AnalysisFields where
  summary : Option SummaryFields
  tasks : Option TasksObj
deriving DecidableEq, Repr

/-- The row handed back by the supabase `meetings` insert (`.select().single()`). -/
structure MeetingRow where
  id : ℕ
deriving DecidableEq, Repr

/-- The oracle environment: the request plus the outcome every external
call would have. -/
structure Env where
  /-- `req.file` is present. -/
  hasFile : Bool
  /-- `req.file.originalname` (`none` = falsy). -/
  fileOriginalName : Option String
  /-- `req.body.title` (`none` = falsy). -/
  bodyTitle : Option String
  /-- `req.body.meeting_type` (`none` = falsy). -/
  bodyMeetingType : Option String
  /-- `new Date().toISOString()` at the time of the request. -/
  nowISO : String
  /-- Outcome of the Whisper transcription call. -/
  transcriptionOutcome : CallResult TranscriptionResult
  /-- Outcome of the overall-tone chat completion (reply parse included). -/
  overallOutcome : CallResult (ParseOutcome OverallFields)
  /-- Outcome of the per-segment chat completion (reply parse included). -/
  segOutcome : CallResult (ParseOutcome SegFields)
  /-- Outcome of the summary/tasks chat completion (variant A only). -/
  llmOutcome : CallResult (ParseOutcome AnalysisFields)
  /-- `data` of the `meetings` insert. -/
  meetingInsertData : Option MeetingRow
  /-- `error` of the `meetings` insert. -/
  meetingInsertError : Option String
  /-- `error` of the `transcripts` insert. -/
  transcriptInsertError : Option String
  /-- `error` of the `emotions` / `emotion_segments` insert. -/
  emotionsInsertError : Option String
  /-- `error` of the `summaries` insert. -/
  summaryInsertError : Option String
  /-- `error` of the `tasks` insert. -/
  tasksInsertError : Option String
deriving DecidableEq, Repr

/-- `Math.round` on a rational: round half towards plus infinity. -/
def jsRound (x : ℚ) : ℤ := ⌊x + 1 / 2⌋

/-- The row object passed to the `meetings` insert.  Variant A omits the
`transcript` and `cloud_path` columns (modelled as `none`); variant B sends
them. -/
structure MeetingInsertRow where
  title : String
  meeting_type : String
  duration : ℤ
  mood_score : Option ℚ
  dominant_emotion : Option String
  emotion_breakdown : Option (List (String × ℚ))
  transcript : Option String
  cloud_path : Option String
deriving DecidableEq, Repr

/-- A row of the `transcripts` insert.  Variant B names the columns
`start_time` / `end_time` / `transcript_text`; the shape is the same. -/
structure TranscriptRow where
  start : String
  «end» : String
  text : String
  speaker : Option String
  emotion : Option String
  emotion_score : Option ℚ
deriving DecidableEq, Repr

/-- A row of the `emotions` (variants A, P) or `emotion_segments`
(variant B) insert.  Variant B names the time columns `start_time` /
`end_time`. -/
structure EmotionRow where
  segment_index : ℤ
  start : Option ℚ
  «end» : Option ℚ
  emotion : String
  score : ℚ
deriving DecidableEq, Repr

/-- The row of the `summaries` insert. -/
structure SummaryRow where
  bullets : List String
  decisions : List String
  risks : List String
  follow_up_questions : List String
deriving DecidableEq, Repr

/-- A row of the `tasks` insert. -/
structure TaskRow where
  title : Option String
  description : Option String
  owner : Option String
  due_date : String
  priority : Option String
  status : Option String
  notion_sync_status : Option String
deriving DecidableEq, Repr

/-- A datastore insert attempted by the handler, tagged by table, with the
meeting identifier the dependent rows carry. -/
inductive DBWrite where
  | meetings (row : MeetingInsertRow)
  | transcripts (meeting_id : ℕ) (rows : List TranscriptRow)
  | emotions (meeting_id : ℕ) (rows : List EmotionRow)
  | emotion_segments (meeting_id : ℕ) (rows : List EmotionRow)
  | summaries (meeting_id : ℕ) (row : SummaryRow)
  | tasks (meeting_id : ℕ) (rows : List TaskRow)
deriving DecidableEq, Repr

/-- Tags for the external (non-datastore) calls the handler can make. -/
inductive CallTag where
  | whisper
  | overallTone
  | segmentTone
  | summaryTasks
deriving DecidableEq, Repr

/-- The `emotion` object of the success response. -/
structure EmotionOut where
  moodScore : Option ℚ
  dominantEmotion : Option String
  emotionBreakdown : Option (List (String × ℚ))
  segmentEmotions : List EmotionRow
deriving DecidableEq, Repr

/-- Success response body of variant A (includes summary and tasks). -/
structure OkBodyA where
  meetingId : ℕ
  transcript : String
  segments : List Segment
  words : List String
  summary : SummaryFields
  tasks : List TaskItem
  emotion : EmotionOut
deriving DecidableEq, Repr

/-- Success response body of variants B and P (no summary/tasks). -/
structure OkBodyB where
  meetingId : ℕ
  transcript : String
  segments : List Segment
  words : List String
  emotion : EmotionOut
deriving DecidableEq, Repr

/-- Response body: the 400 body, a 500 body (`details` absent on
variant B's meeting-insert failure), or a 200 body. -/
inductive Body where
  | badRequest (error : String)
  | fatal (error : String) (details : Option String)
  | okA (b : OkBodyA)
  | okB (b : OkBodyB)
deriving DecidableEq, Repr

/-- Everything observable about one handled request. -/
structure HandlerResult where
  status : ℕ
  body : Body
  calls : List CallTag
  writes : List DBWrite
  unlinked : Bool
deriving DecidableEq, Repr

/-- The 400 response for a request without a file (no calls, no writes, no
temp file to unlink). -/
def noFileResult : HandlerResult :=
  { status := 400, body := .badRequest "No audio file uploaded",
    calls := [], writes := [], unlinked := false }

/-- The outer catch block: log, unlink the temp file, respond 500 with
`{ error, details }`. -/
def fatalResult (calls : List CallTag) (writes : List DBWrite)
    (details : String) : HandlerResult :=
  { status := 500, body := .fatal "Failed to process meeting" (some details),
    calls := calls, writes := writes, unlinked := true }

/-- The overall-tone stage body: the call either rejects (propagates), or
its reply is parsed inside a try/catch — on parse failure the three
outputs stay null, otherwise they are read with `?? null`. -/
def runOverall (outcome : CallResult (ParseOutcome OverallFields)) :
    Except String (Option ℚ × Option String × Option (List (String × ℚ))) :=
  match outcome with
  | .throws msg => .error msg
  | .returns .malformed => .ok (none, none, none)
  | .returns (.parsed f) =>
      .ok (f.overallMoodScore, f.dominantEmotion, f.emotionBreakdown)

/-- The per-segment stage body: the call either rejects (propagates), or
its reply is parsed inside a try/catch — on parse failure no entries are
collected, otherwise `parsed.segments` (default `[]`) is iterated. -/
def runSeg (outcome : CallResult (ParseOutcome SegFields)) :
    Except String (List SegEntry) :=
  match outcome with
  | .throws msg => .error msg
  | .returns .malformed => .ok []
  | .returns (.parsed sf) => .ok (sf.segments.getD [])

/-- `segmentPayload[i]` for an analyzer-reported index `i` (undefined for a
negative or too-large index). -/
def payloadAt (segs : List Segment) (i : ℤ) : Option Segment :=
  if i < 0 then none else segs.get? i.toNat

/-- The in-memory `segmentEmotionMap`, modelled as a function from index to
the stored pair, with `Map.set` overwriting semantics. -/
def EmoMap : Type := ℤ → Option (String × ℚ)

/-- `Map.set` on the emotion map. -/
def mapSet (m : EmoMap) (k : ℤ) (v : String × ℚ) : EmoMap :=
  fun i => if i = k then some v else m i

/-- The empty emotion map. -/
def emptyEmoMap : EmoMap := fun _ => none

/-- Variant A's emotion label default: `s.emotion || "neutral"`. -/
def emoLabel (s : SegEntry) : String := s.emotion.getD "neutral"

/-- Variant A's score validation:
`typeof s.score === "number" && s.score >= 0 && s.score <= 1 ? s.score : 0.5`. -/
def scoreA (s : SegEntry) : ℚ :=
  match s.score with
  | some x => if 0 ≤ x ∧ x ≤ 1 then x else 1 / 2
  | none => 1 / 2

/-- Variants B and P score handling:
`typeof s.score === "number" ? s.score : 0.5` — no range check. -/
def scoreB (s : SegEntry) : ℚ := s.score.getD (1 / 2)

/-- The row variant A pushes onto `segmentEmotionsForDB` for one parsed
entry (the raw analyzer index is kept; the time bounds come from the
`segmentPayload[s.index]` lookup). -/
def rowOfEntryA (segs : List Segment) (s : SegEntry) : EmotionRow :=
  { segment_index := s.index,
    start := (payloadAt segs s.index).map Segment.start,
    «end» := (payloadAt segs s.index).map Segment.«end»,
    emotion := emoLabel s,
    score := scoreA s }

/-- The row variants B and P push onto their emotion-row accumulator (no
score range check). -/
def rowOfEntryB (segs : List Segment) (s : SegEntry) : EmotionRow :=
  { segment_index := s.index,
    start := (payloadAt segs s.index).map Segment.start,
    «end» := (payloadAt segs s.index).map Segment.«end»,
    emotion := emoLabel s,
    score := scoreB s }

/-- Variant A's `segmentEmotionsForDB` accumulation (one push per parsed
entry). -/
def segRowsA (segs : List Segment) (entries : List SegEntry) : List EmotionRow :=
  entries.map (rowOfEntryA segs)

/-- Variants B and P `segmentEmotions` accumulation. -/
def segRowsB (segs : List Segment) (entries : List SegEntry) : List EmotionRow :=
  entries.map (rowOfEntryB segs)

/-- Variant A's `segmentEmotionMap` after the forEach. -/
def segMapA (entries : List SegEntry) : EmoMap :=
  entries.foldl (fun m s => mapSet m s.index (emoLabel s, scoreA s)) emptyEmoMap

/-- Variants B and P `segmentEmotionMap` after the forEach. -/
def segMapB (entries : List SegEntry) : EmoMap :=
  entries.foldl (fun m s => mapSet m s.index (emoLabel s, scoreB s)) emptyEmoMap

/-- Variant A transcript rows:
`segmentEmotionMap.get(index) || { emotion: null, score: null }`. -/
def transcriptRowsA (segs : List Segment) (m : EmoMap) : List TranscriptRow :=
  segs.mapIdx fun i seg =>
    { start := toString seg.start, «end» := toString seg.«end»,
      text := seg.text, speaker := none,
      emotion := (m (Int.ofNat i)).map Prod.fst,
      emotion_score := (m (Int.ofNat i)).map Prod.snd }

/-- `x || null` on a string-valued JavaScript expression. -/
def jsOrNullStr (x : Option String) : Option String :=
  match x with
  | some s => if s = "" then none else some s
  | none => none

/-- `x || null` on a number-valued JavaScript expression (zero is falsy). -/
def jsOrNullQ (x : Option ℚ) : Option ℚ :=
  match x with
  | some v => if v = 0 then none else some v
  | none => none

/-- Variant B transcript rows: speaker `"Unknown"` and
`segmentEmotionMap.get(i)?.emotion || null` / `?.score || null`. -/
def transcriptRowsB (segs : List Segment) (m : EmoMap) : List TranscriptRow :=
  segs.mapIdx fun i seg =>
    { start := toString seg.start, «end» := toString seg.«end»,
      text := seg.text, speaker := some "Unknown",
      emotion := jsOrNullStr ((m (Int.ofNat i)).map Prod.fst),
      emotion_score := jsOrNullQ ((m (Int.ofNat i)).map Prod.snd) }

/-- The summary object substituted when the summary/tasks reply fails to
parse, and the default for a missing `analysis.summary`: all four lists
present and empty. -/
def fallbackSummary : SummaryFields :=
  { bullets := some [], decisions := some [], risks := some [],
    followUpQuestions := some [] }

/-- The complete fallback analysis object for a parse failure of the
summary/tasks reply. -/
def fallbackAnalysis : AnalysisFields :=
  { summary := some fallbackSummary, tasks := some { items := some [] } }

/-- Variant A task rows (`t.dueDate || ""`). -/
def taskRowsA (ts : List TaskItem) : List TaskRow :=
  ts.map fun t =>
    { title := t.title, description := t.description, owner := t.owner,
      due_date := t.dueDate.getD "", priority := t.priority,
      status := t.status, notion_sync_status := none }

/-- Variant A of the handler (first half of `src/transcriptionRoutes.js`).
Stage numbering follows the source comments. -/
def handlerA (env : Env) : HandlerResult :=
  if env.hasFile = false then noFileResult
  else
    match env.transcriptionOutcome with
    | .throws msg => fatalResult [CallTag.whisper] [] msg
    | .returns tr =>
      let transcriptText := tr.text.getD ""
      let segments := tr.segments.getD []
      -- stage 2: overall emotion (called only on a non-empty transcript)
      let callsO := if 0 < transcriptText.length
        then [CallTag.whisper, CallTag.overallTone] else [CallTag.whisper]
      match (if 0 < transcriptText.length
             then runOverall env.overallOutcome
             else Except.ok (none, none, none)) with
      | .error msg => fatalResult callsO [] msg
      | .ok (moodScore, dominantEmotion, emotionBreakdown) =>
        -- stage 3: per-segment emotion (called only when segments exist)
        let callsS := if 0 < segments.length
          then callsO ++ [CallTag.segmentTone] else callsO
        match (if 0 < segments.length
               then runSeg env.segOutcome
               else Except.ok []) with
        | .error msg => fatalResult callsS [] msg
        | .ok entries =>
          let segmentEmotionMap := segMapA entries
          let segmentEmotionsForDB := segRowsA segments entries
          -- stage 4: meeting insert
          let meetingTitle :=
            env.fileOriginalName.getD ("Uploaded meeting " ++ env.nowISO)
          let mrow : MeetingInsertRow :=
            { title := meetingTitle, meeting_type := "generic",
              duration := jsRound (tr.duration.getD 0),
              mood_score := moodScore, dominant_emotion := dominantEmotion,
              emotion_breakdown := emotionBreakdown,
              transcript := none, cloud_path := none }
          match env.meetingInsertError, env.meetingInsertData with
          | some _, _ =>
              -- `throw new Error("Failed to create meeting")`
              fatalResult callsS [DBWrite.meetings mrow] "Failed to create meeting"
          | none, none =>
              -- `meetingRow.id` on a null row throws a TypeError
              fatalResult callsS [DBWrite.meetings mrow]
                "Cannot read properties of null (reading id)"
          | none, some meetingRow =>
            let meetingId := meetingRow.id
            let writesBeforeLLM :=
              [DBWrite.meetings mrow]
              ++ (if 0 < segments.length
                  then [DBWrite.transcripts meetingId
                          (transcriptRowsA segments segmentEmotionMap)]
                  else [])
              ++ (if 0 < segmentEmotionsForDB.length
                  then [DBWrite.emotions meetingId segmentEmotionsForDB]
                  else [])
            -- stage 7: summary/tasks chat completion
            match env.llmOutcome with
            | .throws msg =>
                fatalResult (callsS ++ [CallTag.summaryTasks]) writesBeforeLLM msg
            | .returns po =>
              let analysis := match po with
                | .malformed => fallbackAnalysis
                | .parsed af => af
              let summary := analysis.summary.getD fallbackSummary
              let tasks := (analysis.tasks.bind TasksObj.items).getD []
              let srow : SummaryRow :=
                { bullets := summary.bullets.getD [],
                  decisions := summary.decisions.getD [],
                  risks := summary.risks.getD [],
                  follow_up_questions := summary.followUpQuestions.getD [] }
              let writes :=
                writesBeforeLLM
                ++ [DBWrite.summaries meetingId srow]
                ++ (if 0 < tasks.length
                    then [DBWrite.tasks meetingId (taskRowsA tasks)]
                    else [])
              { status := 200,
                body := Body.okA
                  { meetingId := meetingId, transcript := transcriptText,
                    segments := segments, words := tr.words,
                    summary := summary, tasks := tasks,
                    emotion :=
                      { moodScore := moodScore,
                        dominantEmotion := dominantEmotion,
                        emotionBreakdown := emotionBreakdown,
                        segmentEmotions := segmentEmotionsForDB } },
                calls := callsS ++ [CallTag.summaryTasks],
                writes := writes, unlinked := true }

/-- Variant B of the handler (second half of `src/transcriptionRoutes.js`).
Differences from variant A: title/type come from the request body; the
meeting row carries the transcript and a scaled mood score
(`Math.round(analysis.moodScore * 100)`); segment scores get no range
check; on a failed or row-less meeting insert the handler returns 500
directly, without unlinking the temp file; there is no summary/tasks
stage; per-segment rows go to `emotion_segments`. -/
def handlerB (env : Env) : HandlerResult :=
  if env.hasFile = false then noFileResult
  else
    match env.transcriptionOutcome with
    | .throws msg => fatalResult [CallTag.whisper] [] msg
    | .returns tr =>
      let transcriptText := tr.text.getD ""
      let segments := tr.segments.getD []
      let callsO := if 0 < transcriptText.length
        then [CallTag.whisper, CallTag.overallTone] else [CallTag.whisper]
      match (if 0 < transcriptText.length
             then runOverall env.overallOutcome
             else Except.ok (none, none, none)) with
      | .error msg => fatalResult callsO [] msg
      | .ok (moodScore, dominantEmotion, emotionBreakdown) =>
        let callsS := if 0 < segments.length
          then callsO ++ [CallTag.segmentTone] else callsO
        match (if 0 < segments.length
               then runSeg env.segOutcome
               else Except.ok []) with
        | .error msg => fatalResult callsS [] msg
        | .ok entries =>
          let segmentEmotionMap := segMapB entries
          let segmentEmotions := segRowsB segments entries
          -- stage 4: meeting insert (scaled mood score, transcript inline)
          let mrow : MeetingInsertRow :=
            { title := env.bodyTitle.getD "Untitled Meeting",
              meeting_type := env.bodyMeetingType.getD "generic",
              duration := match tr.duration with
                | some d => if d = 0 then 0 else jsRound d
                | none => 0,
              mood_score := moodScore.map (fun m => ((jsRound (m * 100) : ℤ) : ℚ)),
              dominant_emotion := dominantEmotion,
              emotion_breakdown := emotionBreakdown,
              transcript := some transcriptText, cloud_path := none }
          match env.meetingInsertError, env.meetingInsertData with
          | some _, _ =>
              -- direct `return res.status(500)...` with NO fs.unlink
              { status := 500,
                body := .fatal "Failed to create meeting record" none,
                calls := callsS, writes := [DBWrite.meetings mrow],
                unlinked := false }
          | none, none =>
              { status := 500,
                body := .fatal "Failed to create meeting record" none,
                calls := callsS, writes := [DBWrite.meetings mrow],
                unlinked := false }
          | none, some meetingRow =>
            let meetingId := meetingRow.id
            let writes :=
              [DBWrite.meetings mrow]
              ++ (if 0 < segments.length
                  then [DBWrite.transcripts meetingId
                          (transcriptRowsB segments segmentEmotionMap)]
                  else [])
              ++ (if 0 < segmentEmotions.length
                  then [DBWrite.emotion_segments meetingId segmentEmotions]
                  else [])
            { status := 200,
              body := Body.okB
                { meetingId := meetingId, transcript := transcriptText,
                  segments := segments, words := tr.words,
                  emotion :=
                    { moodScore := moodScore,
                      dominantEmotion := dominantEmotion,
                      emotionBreakdown := emotionBreakdown,
                      segmentEmotions := segmentEmotions } },
              calls := callsS, writes := writes, unlinked := true }

/-- Variant P of the handler (the unnamed source file).  Stages 1-3 match
variant B's defaults, but the meeting-insert argument references the
identifiers `whisper` and `analysis`, which are never defined in the
handler: evaluating `whisper.duration` throws a ReferenceError before the
insert call runs, so the outer catch answers 500 and no insert is ever
attempted. -/
def handlerP (env : Env) : HandlerResult :=
  if env.hasFile = false then noFileResult
  else
    match env.transcriptionOutcome with
    | .throws msg => fatalResult [CallTag.whisper] [] msg
    | .returns tr =>
      let transcriptText := tr.text.getD ""
      let segments := tr.segments.getD []
      let callsO := if 0 < transcriptText.length
        then [CallTag.whisper, CallTag.overallTone] else [CallTag.whisper]
      match (if 0 < transcriptText.length
             then runOverall env.overallOutcome
             else Except.ok (none, none, none)) with
      | .error msg => fatalResult callsO [] msg
      | .ok (_moodScore, _dominantEmotion, _emotionBreakdown) =>
        let callsS := if 0 < segments.length
          then callsO ++ [CallTag.segmentTone] else callsO
        match (if 0 < segments.length
               then runSeg env.segOutcome
               else Except.ok []) with
        | .error msg => fatalResult callsS [] msg
        | .ok _entries =>
            -- `whisper.duration` inside the insert argument: ReferenceError
            fatalResult callsS [] "whisper is not defined"

/-! ### Observers on handler results -/

/-- The `emotion` object of a 200 response, if the body is one. -/
def bodyEmotion : Body → Option EmotionOut
  | .okA b => some b.emotion
  | .okB b => some b.emotion
  | _ => none

/-- The `transcript` field of a 200 response, if the body is one. -/
def bodyTranscript : Body → Option String
  | .okA b => some b.transcript
  | .okB b => some b.transcript
  | _ => none

/-- The `segments` field of a 200 response, if the body is one. -/
def bodySegments : Body → Option (List Segment)
  | .okA b => some b.segments
  | .okB b => some b.segments
  | _ => none

/-- The `summary` field of a variant-A 200 response. -/
def bodySummary : Body → Option SummaryFields
  | .okA b => some b.summary
  | _ => none

/-- The `tasks` field of a variant-A 200 response. -/
def bodyTasks : Body → Option (List TaskItem)
  | .okA b => some b.tasks
  | _ => none

/-- Whether a write targets the `meetings` table. -/
def DBWrite.isMeetings : DBWrite → Bool
  | .meetings _ => true
  | _ => false

/-- The dependent (non-`meetings`) writes among a write list. -/
def dependentWrites : List DBWrite → List DBWrite
  | [] => []
  | .meetings _ :: ws => dependentWrites ws
  | w :: ws => w :: dependentWrites ws

/-- Whether some `meetings` insert was attempted. -/
def hasMeetingWrite (ws : List DBWrite) : Bool := ws.any DBWrite.isMeetings

/-- All rows sent to the `emotions` table. -/
def emotionRowsOf : List DBWrite → List EmotionRow
  | [] => []
  | .emotions _ rows :: ws => rows ++ emotionRowsOf ws
  | _ :: ws => emotionRowsOf ws

/-- All rows sent to the `emotion_segments` table. -/
def emotionSegRowsOf : List DBWrite → List EmotionRow
  | [] => []
  | .emotion_segments _ rows :: ws => rows ++ emotionSegRowsOf ws
  | _ :: ws => emotionSegRowsOf ws

/-- The `mood_score` column of the first attempted `meetings` insert. -/
def meetingMoodOf : List DBWrite → Option (Option ℚ)
  | [] => none
  | .meetings r :: _ => some r.mood_score
  | _ :: ws => meetingMoodOf ws

/-- The entry list of the per-segment analyzer's parsed reply in a given
environment (empty unless the call resolves and parses). -/
def segEntriesOf (env : Env) : List SegEntry :=
  match env.segOutcome with
  | .returns (.parsed sf) => sf.segments.getD []
  | _ => []

/-- The number of transcript segments the transcription produced in a given
environment. -/
def segCount (env : Env) : ℕ :=
  match env.transcriptionOutcome with
  | .returns tr => (tr.segments.getD []).length
  | _ => 0

/-! ### Concrete environments used by witnesses and counterexamples -/

/-- A 30-second transcription with two segments. -/
def trSimple : TranscriptionResult :=
  { text := some "Hello team, great progress this week",
    segments := some [{ start := 0, «end» := 3, text := "Hello team," },
                      { start := 3, «end» := 6, text := "great progress this week" }],
    duration := some 30, words := ["Hello", "team"] }

/-- A well-formed overall-tone reply. -/
def benignOverall : CallResult (ParseOutcome OverallFields) :=
  .returns (.parsed { overallMoodScore := some 80,
                      dominantEmotion := some "happy",
                      emotionBreakdown := some [("happy", 70), ("neutral", 30)] })

/-- A well-formed per-segment reply matching `trSimple` (integral scores so
concrete evaluation avoids rational normalization). -/
def benignSeg : CallResult (ParseOutcome SegFields) :=
  .returns (.parsed { segments := some [
    { index := 0, emotion := some "happy", score := some 1 },
    { index := 1, emotion := some "confident", score := some 1 }] })

/-- A well-formed summary/tasks reply. -/
def benignLLM : CallResult (ParseOutcome AnalysisFields) :=
  .returns (.parsed
    { summary := some { bullets := some ["progress update"],
                        decisions := some [], risks := some [],
                        followUpQuestions := some [] },
      tasks := some { items := some [
        { title := some "Ship it", description := some "finish the release",
          owner := some "Sam", dueDate := none,
          priority := some "high", status := some "todo" }] } })

/-- A fully benign environment: every external call succeeds. -/
def envBase : Env :=
  { hasFile := true, fileOriginalName := some "standup.mp3",
    bodyTitle := some "Weekly sync", bodyMeetingType := none,
    nowISO := "2026-10-12T00:00:00.000Z",
    transcriptionOutcome := .returns trSimple,
    overallOutcome := benignOverall, segOutcome := benignSeg,
    llmOutcome := benignLLM,
    meetingInsertData := some { id := 7 }, meetingInsertError := none,
    transcriptInsertError := none, emotionsInsertError := none,
    summaryInsertError := none, tasksInsertError := none }

/-- All three overall-tone outputs of a response body are null (trivially
true of non-200 bodies, which carry no emotion object). -/
def emotionNulls : Body → Prop
  | .okA b => b.emotion.moodScore = none ∧ b.emotion.dominantEmotion = none ∧
      b.emotion.emotionBreakdown = none
  | .okB b => b.emotion.moodScore = none ∧ b.emotion.dominantEmotion = none ∧
      b.emotion.emotionBreakdown = none
  | _ => True

/-- Whether a write targets the `tasks` table. -/
def DBWrite.isTasks : DBWrite → Bool
  | .tasks _ _ => true
  | _ => false

/-- Whether some `tasks` insert was attempted. -/
def hasTasksWrite (ws : List DBWrite) : Bool := ws.any DBWrite.isTasks

/-- The environment refuting C1: the overall-tone chat completion rejects
with a network error while everything else succeeds. -/
def envC1 : Env := { envBase with overallOutcome := .throws "network error" }

/-- The environment refuting C2: variant B's per-segment analyzer reports
the out-of-range confidence 2 for segment 0. -/
def envC2 : Env :=
  { envBase with segOutcome := .returns (.parsed { segments := some [
      { index := 0, emotion := some "happy", score := some 2 }] }) }

/-- The environment refuting C3: variant B's meeting insert fails. -/
def envC3 : Env := { envBase with meetingInsertError := some "insert failed" }

/-- The environment refuting C5: the per-segment analyzer reports index 5
although the transcription produced only two segments. -/
def envC5 : Env :=
  { envBase with segOutcome := .returns (.parsed { segments := some [
      { index := 5, emotion := some "happy", score := some 1 }] }) }

/-! ### Helper lemmas -/

lemma emotionRowsOf_append (a b : List DBWrite) :
    emotionRowsOf (a ++ b) = emotionRowsOf a ++ emotionRowsOf b := by
  induction a with
  | nil => rfl
  | cons w ws ih => cases w <;> simp [emotionRowsOf, ih]

lemma dependentWrites_append (a b : List DBWrite) :
    dependentWrites (a ++ b) = dependentWrites a ++ dependentWrites b := by
  induction a with
  | nil => rfl
  | cons w ws ih => cases w <;> simp [dependentWrites, ih]

lemma any_ite {α : Type} (c : Prop) [Decidable c] (a b : List α) (p : α → Bool) :
    (if c then a else b).any p = if c then a.any p else b.any p := by
  split <;> rfl

lemma mem_ite_iff {α : Type} (x : α) (c : Prop) [Decidable c] (a b : List α) :
    (x ∈ if c then a else b) ↔ if c then x ∈ a else x ∈ b := by
  split <;> exact Iff.rfl

/-- C9: a request with no audio file attached is answered 400 with exactly
`{"error":"No audio file uploaded"}`, with no external call, no datastore
write and no temp file to remove — in all three handler variants. -/
theorem c9_no_file_400 (env : Env) (h : env.hasFile = false) :
    handlerA env = noFileResult ∧ handlerB env = noFileResult ∧
    handlerP env = noFileResult := by
  refine ⟨?_, ?_, ?_⟩ <;> simp [handlerA, handlerB, handlerP, h]

/-- C9 witness: the 400 path at a concrete environment. -/
theorem c9_no_file_400_witness :
    handlerA { envBase with hasFile := false } = noFileResult ∧
    handlerB { envBase with hasFile := false } = noFileResult ∧
    handlerP { envBase with hasFile := false } = noFileResult :=
  c9_no_file_400 { envBase with hasFile := false } rfl

/-- C6: in the variant of the unnamed source file, any request with a file
whose transcription call succeeds ends in HTTP 500 with no datastore write
at all (the meeting-insert argument references the undefined identifiers
`whisper` and `analysis`, so evaluation throws before the insert runs);
the temp file is still removed by the catch block. -/
theorem c6_variantP_always_500 (env : Env) (tr : TranscriptionResult)
    (hf : env.hasFile = true)
    (ht : env.transcriptionOutcome = .returns tr) :
    (handlerP env).status = 500 ∧ (handlerP env).writes = [] ∧
    (handlerP env).unlinked = true := by
  unfold handlerP
  rw [ht, hf]
  simp only [Bool.true_eq_false, if_false]
  repeat' split
  all_goals simp [fatalResult]

/-- C6 witness: variant P at a fully benign environment. -/
theorem c6_variantP_always_500_witness :
    (handlerP envBase).status = 500 ∧ (handlerP envBase).writes = [] ∧
    (handlerP envBase).unlinked = true :=
  c6_variantP_always_500 envBase trSimple rfl rfl

/-- C3 counterexample: in variant B, when the meeting insert fails the
handler returns 500 directly without removing the temporary file, so the
temporary artifact survives this completed request. -/
theorem c3_counterexample :
    (handlerB envC3).status = 500 ∧ (handlerB envC3).unlinked = false := by
  decide

/-- C3 (amended): variant A removes the temporary file on every exit path
of a request that carries a file; variant B removes it on every exit path
except the meeting-insert-failure return, i.e. whenever the meeting insert
yields a row and no error. -/
theorem c3_cleanup_on_exit :
    (∀ env : Env, env.hasFile = true → (handlerA env).unlinked = true) ∧
    (∀ env : Env, env.hasFile = true → env.meetingInsertError = none →
      env.meetingInsertData.isSome = true → (handlerB env).unlinked = true) := by
  constructor
  · intro env hf
    unfold handlerA
    rw [hf]
    simp only [Bool.true_eq_false, if_false]
    repeat' split
    all_goals simp [fatalResult]
  · intro env hf hme hmd
    unfold handlerB
    rw [hf]
    simp only [Bool.true_eq_false, if_false]
    repeat' split
    all_goals simp_all [fatalResult]

/-- C3 witness: both cleanup guarantees at concrete environments (variant A
with a failing meeting insert, variant B with a succeeding one). -/
theorem c3_cleanup_on_exit_witness :
    (handlerA envC3).unlinked = true ∧ (handlerB envBase).unlinked = true :=
  ⟨c3_cleanup_on_exit.1 envC3 rfl, c3_cleanup_on_exit.2 envBase rfl rfl rfl⟩

/-- C4: whenever the root meeting insert fails or returns no row, both
variants of `src/transcriptionRoutes.js` answer HTTP 500 and attempt no
dependent write: no transcript, emotion, summary or task insert occurs. -/
theorem c4_meeting_failure_aborts (env : Env)
    (hf : env.hasFile = true)
    (hfail : env.meetingInsertError.isSome = true ∨ env.meetingInsertData = none) :
    ((handlerA env).status = 500 ∧ dependentWrites (handlerA env).writes = []) ∧
    ((handlerB env).status = 500 ∧ dependentWrites (handlerB env).writes = []) := by
  constructor
  · unfold handlerA
    rw [hf]
    simp only [Bool.true_eq_false, if_false]
    repeat' split
    all_goals simp_all [fatalResult, dependentWrites]
  · unfold handlerB
    rw [hf]
    simp only [Bool.true_eq_false, if_false]
    repeat' split
    all_goals simp_all [fatalResult, dependentWrites]

/-- C4 witness: a failing meeting insert at a concrete environment. -/
theorem c4_meeting_failure_aborts_witness :
    ((handlerA envC3).status = 500 ∧ dependentWrites (handlerA envC3).writes = []) ∧
    ((handlerB envC3).status = 500 ∧ dependentWrites (handlerB envC3).writes = []) :=
  c4_meeting_failure_aborts envC3 rfl (Or.inl rfl)

/-- C7: when the transcript text is empty, variants A and B skip the
overall-tone stage entirely — no overall-tone call is made — and the three
overall-tone outputs stay null in whatever body is returned. -/
theorem c7_empty_transcript_skips_overall (env : Env) (tr : TranscriptionResult)
    (ht : env.transcriptionOutcome = .returns tr)
    (hempty : tr.text.getD "" = "") :
    (CallTag.overallTone ∉ (handlerA env).calls ∧ emotionNulls (handlerA env).body) ∧
    (CallTag.overallTone ∉ (handlerB env).calls ∧ emotionNulls (handlerB env).body) := by
  have hT : ¬ 0 < (tr.text.getD "").length := by rw [hempty]; simp
  by_cases hfl : env.hasFile = false
  · simp [handlerA, handlerB, hfl, noFileResult, emotionNulls]
  constructor
  · rcases hs : env.segOutcome with m2 | po2 <;> (try rcases po2 with _ | sf) <;>
    by_cases hS : 0 < (tr.segments.getD []).length <;>
    rcases hme : env.meetingInsertError with _ | e <;>
    rcases hmd : env.meetingInsertData with _ | row <;>
    rcases hl : env.llmOutcome with m3 | po3 <;> (try rcases po3 with _ | af) <;>
    simp [handlerA, hfl, ht, hT, hs, hS, hme, hmd, hl, runOverall, runSeg,
      fatalResult, emotionNulls]
  · rcases hs : env.segOutcome with m2 | po2 <;> (try rcases po2 with _ | sf) <;>
    by_cases hS : 0 < (tr.segments.getD []).length <;>
    rcases hme : env.meetingInsertError with _ | e <;>
    rcases hmd : env.meetingInsertData with _ | row <;>
    simp [handlerB, hfl, ht, hT, hs, hS, hme, hmd, runOverall, runSeg,
      fatalResult, emotionNulls]

/-- C7 witness: an environment whose transcription yields no text. -/
theorem c7_empty_transcript_skips_overall_witness :
    (CallTag.overallTone ∉
        (handlerA { envBase with
          transcriptionOutcome := .returns { trSimple with text := none } }).calls ∧
      emotionNulls (handlerA { envBase with
          transcriptionOutcome := .returns { trSimple with text := none } }).body) ∧
    (CallTag.overallTone ∉
        (handlerB { envBase with
          transcriptionOutcome := .returns { trSimple with text := none } }).calls ∧
      emotionNulls (handlerB { envBase with
          transcriptionOutcome := .returns { trSimple with text := none } }).body) :=
  c7_empty_transcript_skips_overall
    { envBase with transcriptionOutcome := .returns { trSimple with text := none } }
    { trSimple with text := none } rfl rfl

/-- C1 counterexample: when the overall-tone call itself throws, the
handler does not answer 200 — the rejection escapes to the outer catch
(only `JSON.parse` of the reply sits inside the stage's try) and the
request fails with HTTP 500, with no write attempted. -/
theorem c1_counterexample :
    (handlerA envC1).status = 500 ∧ (handlerA envC1).writes = [] ∧
    0 < ((trSimple.text.getD "").length) := by
  decide

/-- C1 (amended): only the reply-parse half of the claim holds — when the
overall-tone reply fails to parse as JSON the failure is non-fatal: the
handler answers 200 with the three emotion fields null, transcript and
segments populated, and the meeting insert still attempted; a thrown
remote call, by contrast, is fatal (see the counterexample). -/
theorem c1_overall_parse_failure_nonfatal (env : Env) (tr : TranscriptionResult)
    (row : MeetingRow)
    (hf : env.hasFile = true)
    (ht : env.transcriptionOutcome = .returns tr)
    (htext : 0 < (tr.text.getD "").length)
    (hov : env.overallOutcome = .returns .malformed)
    (hsg : env.segOutcome.isThrow = false)
    (hllm : env.llmOutcome.isThrow = false)
    (hme : env.meetingInsertError = none)
    (hmd : env.meetingInsertData = some row) :
    (handlerA env).status = 200 ∧ emotionNulls (handlerA env).body ∧
    bodyTranscript (handlerA env).body = some (tr.text.getD "") ∧
    bodySegments (handlerA env).body = some (tr.segments.getD []) ∧
    hasMeetingWrite (handlerA env).writes = true := by
  rcases hs : env.segOutcome with m2 | po2
  · rw [hs] at hsg; exact absurd hsg (by simp [CallResult.isThrow])
  rcases hl : env.llmOutcome with m3 | po3
  · rw [hl] at hllm; exact absurd hllm (by simp [CallResult.isThrow])
  rcases po2 with _ | sf <;> rcases po3 with _ | af <;>
  by_cases hS : 0 < (tr.segments.getD []).length <;>
  simp [handlerA, hf, ht, htext, hov, hs, hl, hme, hmd, hS, runOverall, runSeg,
    emotionNulls, bodyTranscript, bodySegments, hasMeetingWrite,
    DBWrite.isMeetings, fallbackAnalysis, fallbackSummary]

/-- C1 witness: a malformed overall-tone reply at a concrete environment. -/
theorem c1_overall_parse_failure_nonfatal_witness :
    (handlerA { envBase with overallOutcome := .returns .malformed }).status = 200 ∧
    emotionNulls (handlerA { envBase with overallOutcome := .returns .malformed }).body ∧
    bodyTranscript (handlerA { envBase with overallOutcome := .returns .malformed }).body
      = some (trSimple.text.getD "") ∧
    bodySegments (handlerA { envBase with overallOutcome := .returns .malformed }).body
      = some (trSimple.segments.getD []) ∧
    hasMeetingWrite (handlerA { envBase with overallOutcome := .returns .malformed }).writes = true :=
  c1_overall_parse_failure_nonfatal
    { envBase with overallOutcome := .returns .malformed } trSimple { id := 7 }
    rfl rfl (by decide) rfl rfl rfl rfl rfl

/-- C8: in the summary/task-extracting variant (A), when the summary/tasks
reply fails to parse as JSON the pipeline substitutes an empty summary
(all four lists empty) and an empty task list, raises no fatal error
(HTTP 200), and still persists: the summary row with four empty lists is
inserted and no task insert is attempted. -/
theorem c8_summary_parse_failure_degrades (env : Env) (tr : TranscriptionResult)
    (row : MeetingRow)
    (hf : env.hasFile = true)
    (ht : env.transcriptionOutcome = .returns tr)
    (hov : env.overallOutcome.isThrow = false)
    (hsg : env.segOutcome.isThrow = false)
    (hme : env.meetingInsertError = none)
    (hmd : env.meetingInsertData = some row)
    (hllm : env.llmOutcome = .returns .malformed) :
    (handlerA env).status = 200 ∧
    bodySummary (handlerA env).body = some fallbackSummary ∧
    bodyTasks (handlerA env).body = some [] ∧
    DBWrite.summaries row.id
        { bullets := [], decisions := [], risks := [], follow_up_questions := [] }
      ∈ (handlerA env).writes ∧
    hasTasksWrite (handlerA env).writes = false := by
  rcases ho : env.overallOutcome with m1 | po1
  · rw [ho] at hov; exact absurd hov (by simp [CallResult.isThrow])
  rcases hs : env.segOutcome with m2 | po2
  · rw [hs] at hsg; exact absurd hsg (by simp [CallResult.isThrow])
  rcases po1 with _ | f1 <;> rcases po2 with _ | sf <;>
  by_cases hT : 0 < (tr.text.getD "").length <;>
  by_cases hS : 0 < (tr.segments.getD []).length <;>
  simp [handlerA, hf, ht, ho, hs, hme, hmd, hllm, hT, hS, runOverall, runSeg,
    fallbackAnalysis, fallbackSummary, bodySummary, bodyTasks, hasTasksWrite,
    DBWrite.isTasks, any_ite, mem_ite_iff]

/-- C8 witness: a malformed summary/tasks reply at a concrete environment. -/
theorem c8_summary_parse_failure_degrades_witness :
    (handlerA { envBase with llmOutcome := .returns .malformed }).status = 200 ∧
    bodySummary (handlerA { envBase with llmOutcome := .returns .malformed }).body
      = some fallbackSummary ∧
    bodyTasks (handlerA { envBase with llmOutcome := .returns .malformed }).body
      = some [] ∧
    DBWrite.summaries (7 : ℕ)
        { bullets := [], decisions := [], risks := [], follow_up_questions := [] }
      ∈ (handlerA { envBase with llmOutcome := .returns .malformed }).writes ∧
    hasTasksWrite (handlerA { envBase with llmOutcome := .returns .malformed }).writes
      = false :=
  c8_summary_parse_failure_degrades
    { envBase with llmOutcome := .returns .malformed } trSimple { id := 7 }
    rfl rfl rfl rfl rfl rfl rfl

/-- C10: in variant B, when the parsed overall mood score is non-null, the
persisted `meetings.mood_score` equals `Math.round(100 * moodScore)` while
the 200 response's `emotion.moodScore` is the raw parsed value — the two
are reported on different scales within the same run. -/
theorem c10_mood_score_scales_differ (env : Env) (tr : TranscriptionResult)
    (f : OverallFields) (m : ℚ) (row : MeetingRow)
    (hf : env.hasFile = true)
    (ht : env.transcriptionOutcome = .returns tr)
    (htext : 0 < (tr.text.getD "").length)
    (hov : env.overallOutcome = .returns (.parsed f))
    (hm : f.overallMoodScore = some m)
    (hsg : env.segOutcome.isThrow = false)
    (hme : env.meetingInsertError = none)
    (hmd : env.meetingInsertData = some row) :
    (handlerB env).status = 200 ∧
    meetingMoodOf (handlerB env).writes = some (some ((jsRound (m * 100) : ℤ) : ℚ)) ∧
    (bodyEmotion (handlerB env).body).map EmotionOut.moodScore = some (some m) := by
  rcases hs : env.segOutcome with m2 | po2
  · rw [hs] at hsg; exact absurd hsg (by simp [CallResult.isThrow])
  rcases po2 with _ | sf <;>
  by_cases hS : 0 < (tr.segments.getD []).length <;>
  simp [handlerB, hf, ht, htext, hov, hm, hs, hme, hmd, hS, runOverall, runSeg,
    meetingMoodOf, bodyEmotion]

/-- C10 witness: the benign environment, whose parsed mood score is 80. -/
theorem c10_mood_score_scales_differ_witness :
    (handlerB envBase).status = 200 ∧
    meetingMoodOf (handlerB envBase).writes
      = some (some ((jsRound ((80 : ℚ) * 100) : ℤ) : ℚ)) ∧
    (bodyEmotion (handlerB envBase).body).map EmotionOut.moodScore
      = some (some 80) :=
  c10_mood_score_scales_differ envBase trSimple
    { overallMoodScore := some 80, dominantEmotion := some "happy",
      emotionBreakdown := some [("happy", 70), ("neutral", 30)] }
    80 { id := 7 } rfl rfl (by decide) rfl rfl rfl rfl rfl

lemma ite_length_pos_self {α : Type} (l : List α) :
    (if 0 < l.length then l else []) = l := by
  split
  · rfl
  · have hlen : l.length = 0 := by omega
    exact (List.length_eq_zero.mp hlen).symm

lemma emotionRowsOf_ite (c : Prop) [Decidable c] (a b : List DBWrite) :
    emotionRowsOf (if c then a else b)
      = if c then emotionRowsOf a else emotionRowsOf b := by
  split <;> rfl

lemma payloadAt_eq_none {segs : List Segment} {i : ℤ}
    (h : i < 0 ∨ (segs.length : ℤ) ≤ i) : payloadAt segs i = none := by
  unfold payloadAt
  rcases h with h | h
  · rw [if_pos h]
  · rw [if_neg (by omega)]
    exact List.get?_eq_none.mpr (by omega)

lemma scoreA_bounds (s : SegEntry) : 0 ≤ scoreA s ∧ scoreA s ≤ 1 := by
  unfold scoreA
  cases s.score with
  | none => norm_num
  | some x =>
      dsimp only
      split
      · next h => exact h
      · norm_num

/-- Every row variant A ever hands to the `emotions` insert is the image of
one parsed analyzer entry under `rowOfEntryA`, built over the segments of
the successful transcription. -/
lemma emotionRows_handlerA_shape (env : Env) :
    ∀ r ∈ emotionRowsOf (handlerA env).writes,
      ∃ tr s, env.transcriptionOutcome = .returns tr ∧
        s ∈ segEntriesOf env ∧ r = rowOfEntryA (tr.segments.getD []) s := by
  intro r hr
  by_cases hfl : env.hasFile = false
  · simp [handlerA, hfl, noFileResult, emotionRowsOf] at hr
  rcases ht : env.transcriptionOutcome with m | tr
  · simp [handlerA, hfl, ht, fatalResult, emotionRowsOf] at hr
  by_cases hT : 0 < (tr.text.getD "").length <;>
  rcases ho : env.overallOutcome with m1 | po1 <;> (try rcases po1 with _ | f1) <;>
  by_cases hS : 0 < (tr.segments.getD []).length <;>
  rcases hs : env.segOutcome with m2 | po2 <;> (try rcases po2 with _ | sf) <;>
  rcases hme : env.meetingInsertError with _ | e <;>
  rcases hmd : env.meetingInsertData with _ | row <;>
  rcases hl : env.llmOutcome with m3 | po3 <;> (try rcases po3 with _ | af) <;>
  simp [handlerA, hfl, ht, hT, ho, hS, hs, hme, hmd, hl, runOverall, runSeg,
    fatalResult, emotionRowsOf, emotionRowsOf_append, emotionRowsOf_ite,
    ite_length_pos_self, segRowsA] at hr <;>
  · obtain ⟨-, s, hsmem, hEq⟩ := hr
    exact ⟨tr, s, rfl, by simpa [segEntriesOf, hs] using hsmem, hEq.symm⟩

/-- C2 counterexample: variant B applies no range check, so the
out-of-range score 2 is handed to the `emotion_segments` insert unchanged
(and the insert reports no error), refuting the claim that every persisted
segment-emotion score lies in [0,1]. -/
theorem c2_counterexample :
    (handlerB envC2).status = 200 ∧
    emotionSegRowsOf (handlerB envC2).writes
      = [{ segment_index := 0, start := some 0, «end» := some 3,
           emotion := "happy", score := 2 }] ∧
    ¬((2 : ℚ) ≤ 1) ∧ envC2.emotionsInsertError = none := by
  refine ⟨by decide, by decide, by norm_num, rfl⟩

/-- C2 (amended): the stated validation holds in variant A — every row the
handler hands to the `emotions` insert has its score in [0,1] (out-of-range
or non-numeric scores were replaced with 0.5) and its emotion label either
defaulted to "neutral" or taken from the analyzer's reply; variant B only
replaces non-numeric scores and stores out-of-range numeric scores
unchanged (see the counterexample). -/
theorem c2_segment_score_validation (env : Env) :
    ∀ r ∈ emotionRowsOf (handlerA env).writes,
      (0 ≤ r.score ∧ r.score ≤ 1) ∧
      (r.emotion = "neutral" ∨ ∃ s ∈ segEntriesOf env, s.emotion = some r.emotion) := by
  intro r hr
  obtain ⟨tr, s, _ht, hsmem, hEq⟩ := emotionRows_handlerA_shape env r hr
  subst hEq
  refine ⟨by simpa [rowOfEntryA] using scoreA_bounds s, ?_⟩
  cases hse : s.emotion with
  | none => left; simp [rowOfEntryA, emoLabel, hse]
  | some em => right; exact ⟨s, hsmem, by simp [rowOfEntryA, emoLabel, hse]⟩

/-- C2 witness: the first emotion row of the benign environment. -/
theorem c2_segment_score_validation_witness :
    (0 ≤ (rowOfEntryA (trSimple.segments.getD [])
        { index := 0, emotion := some "happy", score := some 1 }).score ∧
      (rowOfEntryA (trSimple.segments.getD [])
        { index := 0, emotion := some "happy", score := some 1 }).score ≤ 1) ∧
    ((rowOfEntryA (trSimple.segments.getD [])
        { index := 0, emotion := some "happy", score := some 1 }).emotion = "neutral" ∨
      ∃ s ∈ segEntriesOf envBase,
        s.emotion = some (rowOfEntryA (trSimple.segments.getD [])
          { index := 0, emotion := some "happy", score := some 1 }).emotion) :=
  c2_segment_score_validation envBase
    (rowOfEntryA (trSimple.segments.getD [])
      { index := 0, emotion := some "happy", score := some 1 })
    (by decide)

/-- C5 counterexample: variant A pushes the analyzer-reported index
unfiltered, so a row with segment index 5 is handed to the `emotions`
insert although only 2 segments exist (the insert reporting no error),
refuting 0 ≤ index < segment count for persisted rows. -/
theorem c5_counterexample :
    emotionRowsOf (handlerA envC5).writes
      = [{ segment_index := 5, start := none, «end» := none,
           emotion := "happy", score := 1 }] ∧
    segCount envC5 = 2 ∧ ¬((5 : ℤ) < 2) ∧ envC5.emotionsInsertError = none := by
  refine ⟨by decide, by decide, by decide, rfl⟩

/-- C5 (amended): every emotion row variant A hands to the `emotions`
insert carries an index reported by the analyzer, unchanged — the index is
in range only when the analyzer's output is; an out-of-range index is
persisted anyway, with null start and end times. -/
theorem c5_segment_index_provenance (env : Env) :
    ∀ r ∈ emotionRowsOf (handlerA env).writes,
      r.segment_index ∈ (segEntriesOf env).map SegEntry.index ∧
      ((r.segment_index < 0 ∨ (segCount env : ℤ) ≤ r.segment_index) →
        r.start = none ∧ r.«end» = none) := by
  intro r hr
  obtain ⟨tr, s, ht, hsmem, hEq⟩ := emotionRows_handlerA_shape env r hr
  subst hEq
  constructor
  · exact List.mem_map.mpr ⟨s, hsmem, rfl⟩
  · intro hout
    have hsc : segCount env = (tr.segments.getD []).length := by
      simp [segCount, ht]
    rw [hsc] at hout
    have hnone : payloadAt (tr.segments.getD []) s.index = none :=
      payloadAt_eq_none (by simpa [rowOfEntryA] using hout)
    simp [rowOfEntryA, hnone]

/-- C5 witness: the out-of-range row of the C5 environment satisfies the
amended property (index 5 comes from the analyzer; start and end are null). -/
theorem c5_segment_index_provenance_witness :
    ((rowOfEntryA (trSimple.segments.getD [])
        { index := 5, emotion := some "happy", score := some 1 }).segment_index
      ∈ (segEntriesOf envC5).map SegEntry.index) ∧
    (((rowOfEntryA (trSimple.segments.getD [])
        { index := 5, emotion := some "happy", score := some 1 }).segment_index < 0 ∨
      (segCount envC5 : ℤ) ≤ (rowOfEntryA (trSimple.segments.getD [])
        { index := 5, emotion := some "happy", score := some 1 }).segment_index) →
      (rowOfEntryA (trSimple.segments.getD [])
        { index := 5, emotion := some "happy", score := some 1 }).start = none ∧
      (rowOfEntryA (trSimple.segments.getD [])
        { index := 5, emotion := some "happy", score := some 1 }).«end» = none) :=
  c5_segment_index_provenance envC5
    (rowOfEntryA (trSimple.segments.getD [])
      { index := 5, emotion := some "happy", score := some 1 })
    (by decide)

end MinutesBackend
